import Mathlib

/-!
Shallow embedding of the `ai_worthy_api_roo_1` personal-finance backend
(`src/ai_worthy_api_roo_1/...`): SQLAlchemy models, repositories, unit of
work, and the auth/transaction services, together with theorems about the
balance invariant, unit-of-work atomicity, ownership scoping, tag
filtering, amount conversion, authentication outcomes, registration, date
bounds, stored-amount sign, and new-user defaults.

Modelling conventions:
- The database is a value (`DB`): three relations as lists plus
  autoincrement counters for primary keys.
- Python `float` amounts are modelled as `ℚ`; `int(x)` (truncation toward
  zero) is `pyInt`.
- Python truthiness on optional filter fields (`if filters.start_date:`)
  is modelled explicitly: `none`, `some 0`, `some ""`, `some []` are falsy.
- `HTTPException(status_code, detail)` is the `Err` structure; a service
  call returns `DB × Except Err β`, where the returned `DB` is the
  committed state (the original state when the unit of work rolled back).
- SQL `LIKE '%d%'` on plain text is modelled as substring containment.
-/

namespace Ledger

/-- Python `int(q)`: truncation toward zero. -/
def pyInt (q : ℚ) : Int := if 0 ≤ q then ⌊q⌋ else ⌈q⌉

/-- `database/models.py` `User`: column defaults are `balance = 0`,
`primary_currency = "BYN"`. -/
structure User where
  id : Nat
  username : String
  password : String
  image : String
  balance : Int
  primary_currency : String
deriving DecidableEq

/-- `database/models.py` `Transaction`: `amount` is an integer count of
minor units; `created_at` is epoch milliseconds. -/
structure Transaction where
  id : Nat
  description : String
  currency : String
  amount : Int
  is_income : Bool
  created_at : Int
  owner_id : Nat
deriving DecidableEq

/-- `database/models.py` `Tag`. -/
structure Tag where
  id : Nat
  text : String
  user_id : Nat
  transaction_id : Nat
deriving DecidableEq

/-- The database state: three relations plus autoincrement counters. -/
structure DB where
  users : List User
  transactions : List Transaction
  tags : List Tag
  nextUserId : Nat
  nextTransactionId : Nat
  nextTagId : Nat
deriving DecidableEq

/-- `schemas/transaction.py` `TransactionCreate`: client-facing amount is a
decimal (Python float, modelled as `ℚ`); no sign constraint is declared. -/
structure TransactionCreate where
  description : String
  currency : String
  amount : ℚ
  is_income : Bool
  tags : List String := []
deriving DecidableEq

/-- `schemas/transaction.py` `TransactionOut`. -/
structure TransactionOut where
  id : Nat
  description : String
  currency : String
  amount : ℚ
  is_income : Bool
  created_at : Int
  tags : List String
deriving DecidableEq

/-- `schemas/transaction.py` `TransactionFilter` (defaults `page = 1`,
`per_page = 10`). -/
structure TransactionFilter where
  page : Nat := 1
  per_page : Nat := 10
  description : Option String := none
  tags : Option (List String) := none
  start_date : Option Int := none
  end_date : Option Int := none
deriving DecidableEq

/-- `schemas/auth.py` `UserCreate` (`image` optional). -/
structure UserCreate where
  username : String
  password : String
  image : Option String := none
deriving DecidableEq

/-- `schemas/auth.py` `UserLogin`. -/
structure UserLogin where
  username : String
  password : String
deriving DecidableEq

/-- `fastapi.HTTPException`: status code plus detail string. -/
structure Err where
  status : Nat
  detail : String
deriving DecidableEq

/-- Modelled from the spec: `core/security.py` is imported by the sources
but absent from them; the spec treats password hashing as an external
primitive.  It is modelled as an injective tagging function. -/
def get_password_hash (password : String) : String := "$2b$12$" ++ password

/-- Modelled from the spec: bcrypt-style verification succeeds exactly when
the hash matches the hash of the plaintext. -/
def verify_password (plain_password hashed_password : String) : Bool :=
  hashed_password == get_password_hash plain_password

/-- Default avatar URL synthesized from the username
(`user_repository.py` line 130, `api/auth.py` line 122). -/
def default_image (username : String) : String :=
  "https://api.dicebear.com/7.x/identicon/svg?seed=" ++ username

namespace UserRepo

/-- `SQLAlchemyUserRepository.get_by_id`. -/
def get_by_id (db : DB) (user_id : Nat) : Option User :=
  db.users.find? (fun u => u.id == user_id)

/-- `SQLAlchemyUserRepository.get_by_username`. -/
def get_by_username (db : DB) (username : String) : Option User :=
  db.users.find? (fun u => u.username == username)

/-- `SQLAlchemyUserRepository.create`: defaults the image when the given
one is falsy, hashes the password, and inserts a row; the `balance` and
`primary_currency` columns take their declared defaults `0` / `"BYN"`. -/
def create (db : DB) (user_data : UserCreate) : DB × User :=
  let image :=
    match user_data.image with
    | some i => if i == "" then default_image user_data.username else i
    | none => default_image user_data.username
  let new_user : User :=
    { id := db.nextUserId
      username := user_data.username
      password := get_password_hash user_data.password
      image := image
      balance := 0
      primary_currency := "BYN" }
  ({ db with users := db.users ++ [new_user], nextUserId := db.nextUserId + 1 },
   new_user)

/-- `SQLAlchemyUserRepository.update_balance`: unconditional `UPDATE users
SET balance = new WHERE id = user_id`. -/
def update_balance (db : DB) (user_id : Nat) (new_balance : Int) : DB :=
  { db with
    users := db.users.map
      (fun u => if u.id == user_id then { u with balance := new_balance } else u) }

/-- `SQLAlchemyUserRepository.get_balance`. -/
def get_balance (db : DB) (user_id : Nat) : Option (Int × String) :=
  (get_by_id db user_id).map (fun u => (u.balance, u.primary_currency))

end UserRepo

namespace TagRepo

/-- `SQLAlchemyTagRepository.get_by_transaction`. -/
def get_by_transaction (db : DB) (transaction_id : Nat) : List Tag :=
  db.tags.filter (fun tg => tg.transaction_id == transaction_id)

end TagRepo

namespace TransactionRepo

/-- `SQLAlchemyTransactionRepository.get_by_id`: the row must match both
the transaction id and the owner id. -/
def get_by_id (db : DB) (transaction_id : Nat) (user_id : Nat) : Option Transaction :=
  db.transactions.find? (fun t => t.id == transaction_id && t.owner_id == user_id)

/-- The WHERE conditions built in `get_multi` (lines 141-154), including
Python truthiness: an absent, empty, or zero field adds no condition, and
`end_date = -1` adds no upper bound. -/
def txMatches (user_id : Nat) (filters : TransactionFilter) (t : Transaction) : Bool :=
  (t.owner_id == user_id)
  && (match filters.description with
      | some d => if d == "" then true else decide (d.toList <:+: t.description.toList)
      | none => true)
  && (match filters.start_date with
      | some sd => if sd == 0 then true else decide (sd ≤ t.created_at)
      | none => true)
  && (match filters.end_date with
      | some ed => if ed == 0 || ed == -1 then true else decide (t.created_at ≤ ed)
      | none => true)

/-- Insertion into a list kept sorted by `created_at` descending
(modelling `ORDER BY created_at DESC`). -/
def insertDesc (t : Transaction) : List Transaction → List Transaction
  | [] => [t]
  | u :: us => if u.created_at ≥ t.created_at then u :: insertDesc t us else t :: u :: us

/-- Sort by `created_at` descending. -/
def sortDesc (l : List Transaction) : List Transaction :=
  l.foldr insertDesc []

/-- The server-side page of `get_multi` (lines 157-167): owner, description
and date conditions, `ORDER BY created_at DESC`, `OFFSET (page-1)*per_page`,
`LIMIT per_page` — computed before any tag filtering. -/
def serverPage (db : DB) (user_id : Nat) (filters : TransactionFilter) : List Transaction :=
  ((sortDesc (db.transactions.filter (txMatches user_id filters))).drop
      ((filters.page - 1) * filters.per_page)).take filters.per_page

/-- The tag texts of one transaction, as queried in `get_multi`
(lines 175-179). -/
def transactionTagTexts (db : DB) (transaction_id : Nat) : List String :=
  (db.tags.filter (fun tg => tg.transaction_id == transaction_id)).map (fun tg => tg.text)

/-- `all(tag in transaction_tags for tag in filters.tags)` (line 182):
AND semantics over the required tag texts. -/
def hasAllTags (db : DB) (required : List String) (t : Transaction) : Bool :=
  required.all (fun s => (transactionTagTexts db t.id).contains s)

/-- `SQLAlchemyTransactionRepository.get_multi`: the server-side page, then
(only when the tags list is truthy) a Python-side filter keeping
transactions that carry all required tags. -/
def get_multi (db : DB) (user_id : Nat) (filters : TransactionFilter) : List Transaction :=
  let page := serverPage db user_id filters
  match filters.tags with
  | some ts => if ts.isEmpty then page else page.filter (hasAllTags db ts)
  | none => page

/-- `SQLAlchemyTransactionRepository.get_recent`. -/
def get_recent (db : DB) (user_id : Nat) (limit : Nat := 3) : List Transaction :=
  (sortDesc (db.transactions.filter (fun t => t.owner_id == user_id))).take limit

end TransactionRepo

/-! ## Unit of work

`repositories/unit_of_work.py`.  A session holds a committed database
state plus the writes pending in the open transaction; `__aexit__` does
`try: rollback-or-commit finally: close`. -/

/-- One pending write issued against the session by a service body. -/
inductive Write where
  | insertTransaction (t : Transaction)
  | setBalance (user_id : Nat) (new_balance : Int)
  | insertTag (text : String) (user_id : Nat) (transaction_id : Nat)
  | deleteTransaction (transaction_id : Nat)
deriving DecidableEq

/-- Applying one write to the database.  `insertTransaction` /
`insertTag` model the autoincrement primary keys; `deleteTransaction`
also removes the transaction's tags (the `cascade="all, delete-orphan"`
relationship in `database/models.py`). -/
def applyWrite (db : DB) : Write → DB
  | .insertTransaction t =>
      { db with transactions := db.transactions ++ [t],
                nextTransactionId := db.nextTransactionId + 1 }
  | .setBalance user_id new_balance =>
      UserRepo.update_balance db user_id new_balance
  | .insertTag text user_id transaction_id =>
      { db with
        tags := db.tags ++ [{ id := db.nextTagId, text := text, user_id := user_id,
                              transaction_id := transaction_id }],
        nextTagId := db.nextTagId + 1 }
  | .deleteTransaction transaction_id =>
      { db with
        transactions := db.transactions.filter (fun t => !(t.id == transaction_id)),
        tags := db.tags.filter (fun tg => !(tg.transaction_id == transaction_id)) }

/-- Committing applies the pending writes in order. -/
def applyWrites (db : DB) (ws : List Write) : DB := ws.foldl applyWrite db

/-- An open SQLAlchemy session: last committed state, pending writes,
and whether the session has been released. -/
structure Session where
  committed : DB
  pending : List Write
  closed : Bool
deriving DecidableEq

namespace SQLAlchemyUnitOfWork

/-- `session.commit()`. -/
def commit (s : Session) : Session :=
  { s with committed := applyWrites s.committed s.pending, pending := [] }

/-- `session.rollback()`: pending writes are discarded. -/
def rollback (s : Session) : Session := { s with pending := [] }

/-- `session.close()`: the session is released. -/
def close (s : Session) : Session := { s with closed := true }

/-- `SQLAlchemyUnitOfWork.__aexit__`: rollback when an exception was
raised, commit otherwise, and close the session in the `finally` block
on both paths. -/
def aexit (exc_raised : Bool) (s : Session) : Session :=
  close (if exc_raised then rollback s else commit s)

end SQLAlchemyUnitOfWork

/-- Running one service body inside `async with self.unit_of_work`: the
body was evaluated against the entered session (fresh, no pending
writes) and either raised before issuing any write (all the bodies
below validate before writing) or produced its full list of writes;
`__aexit__` then rolls back or commits and closes. -/
def runUow (db : DB) (body : Except Err (List Write)) : Session × Except Err Unit :=
  match body with
  | .error e =>
      (SQLAlchemyUnitOfWork.aexit true { committed := db, pending := [], closed := false },
       .error e)
  | .ok ws =>
      (SQLAlchemyUnitOfWork.aexit false { committed := db, pending := ws, closed := false },
       .ok ())

/-- The `HTTPException(404, "User not found")` raised by the transaction
service. -/
def userNotFound : Err := ⟨404, "User not found"⟩

namespace TransactionService

/-- The body of `TransactionService.create_transaction` (lines 138-168):
validate the user, insert the transaction row (the repository converts
the decimal amount to minor units by `int(amount * 100)`), write the new
absolute balance, and insert one tag row per given tag text. -/
def createBody (db : DB) (transaction_data : TransactionCreate) (user_id : Nat)
    (now : Int) : Except Err (List Write) :=
  match UserRepo.get_by_id db user_id with
  | none => .error userNotFound
  | some user =>
    let formatted_amount := pyInt (transaction_data.amount * 100)
    let new_transaction : Transaction :=
      { id := db.nextTransactionId
        description := transaction_data.description
        currency := transaction_data.currency
        amount := formatted_amount
        is_income := transaction_data.is_income
        created_at := now
        owner_id := user_id }
    let new_balance :=
      if transaction_data.is_income then user.balance + formatted_amount
      else user.balance - formatted_amount
    .ok (Write.insertTransaction new_transaction
          :: Write.setBalance user_id new_balance
          :: transaction_data.tags.map
               (fun text => Write.insertTag text user_id new_transaction.id))

/-- `TransactionService.create_transaction`: run the body in a unit of
work; `now` is the epoch-millisecond timestamp captured by the
`created_at` column default. -/
def create_transaction (db : DB) (transaction_data : TransactionCreate)
    (user_id : Nat) (now : Int) : DB × Except Err Bool :=
  let (s, r) := runUow db (createBody db transaction_data user_id now)
  (s.committed, r.map (fun _ => true))

/-- The body of `TransactionService.delete_transaction` (lines 181-210):
a transaction not found for this owner yields `False` with no writes;
otherwise the inverse balance delta is written and the row deleted. -/
def deleteBody (db : DB) (transaction_id user_id : Nat) :
    Except Err (List Write × Bool) :=
  match TransactionRepo.get_by_id db transaction_id user_id with
  | none => .ok ([], false)
  | some transaction =>
    match UserRepo.get_by_id db user_id with
    | none => .error userNotFound
    | some user =>
      let formatted_amount := transaction.amount
      let new_balance :=
        if transaction.is_income then user.balance - formatted_amount
        else user.balance + formatted_amount
      .ok ([Write.setBalance user_id new_balance,
            Write.deleteTransaction transaction_id], true)

/-- `TransactionService.delete_transaction`: run the body in a unit of
work. -/
def delete_transaction (db : DB) (transaction_id user_id : Nat) :
    DB × Except Err Bool :=
  match deleteBody db transaction_id user_id with
  | .error e => ((runUow db (.error e)).1.committed, .error e)
  | .ok (ws, r) => ((runUow db (.ok ws)).1.committed, .ok r)

/-- `TransactionService.get_transaction` (lines 35-53): amount is
converted back from cents by dividing by 100. -/
def get_transaction (db : DB) (transaction_id user_id : Nat) : Option TransactionOut :=
  match TransactionRepo.get_by_id db transaction_id user_id with
  | none => none
  | some transaction =>
    some { id := transaction.id
           description := transaction.description
           currency := transaction.currency
           amount := (transaction.amount : ℚ) / 100
           is_income := transaction.is_income
           created_at := transaction.created_at
           tags := (TagRepo.get_by_transaction db transaction.id).map (fun tg => tg.text) }

end TransactionService

namespace AuthService

/-- `AuthService.register_user` (lines 40-53): conflict when the
username is taken, otherwise delegate to the user repository create. -/
def register_user (db : DB) (user_data : UserCreate) : DB × Except Err Bool :=
  match UserRepo.get_by_username db user_data.username with
  | some _ => (db, .error ⟨400, "User already exists"⟩)
  | none => ((UserRepo.create db user_data).1, .ok true)

/-- `AuthService.authenticate_user` (lines 66-72): `None` both when the
username is absent and when verification fails. -/
def authenticate_user (db : DB) (username password : String) : Option User :=
  match UserRepo.get_by_username db username with
  | none => none
  | some user => if verify_password password user.password then some user else none

/-- `AuthService.login` (lines 87-95): uniform 401 on no match. -/
def login (db : DB) (login_data : UserLogin) : Except Err User :=
  match authenticate_user db login_data.username login_data.password with
  | none => .error ⟨401, "Invalid credentials"⟩
  | some user => .ok user

end AuthService

namespace Api

/-- The `/auth/login` endpoint (`api/auth.py` lines 58-90): unlike
`AuthService`, it raises 404 for a missing username and 401 for a wrong
password. -/
def login (db : DB) (login_data : UserLogin) : Except Err User :=
  match UserRepo.get_by_username db login_data.username with
  | none => .error ⟨404, "User not found"⟩
  | some user =>
    if verify_password login_data.password user.password then .ok user
    else .error ⟨401, "Invalid password"⟩

/-- The `/auth/register` endpoint (`api/auth.py` lines 93-137): inline
duplicate-username check, default image, hash, insert; `balance` and
`primary_currency` take the model defaults. -/
def register (db : DB) (user_data : UserCreate) : DB × Except Err Bool :=
  match UserRepo.get_by_username db user_data.username with
  | some _ => (db, .error ⟨400, "User already exists"⟩)
  | none =>
    let image :=
      match user_data.image with
      | some i => if i == "" then default_image user_data.username else i
      | none => default_image user_data.username
    let new_user : User :=
      { id := db.nextUserId
        username := user_data.username
        password := get_password_hash user_data.password
        image := image
        balance := 0
        primary_currency := "BYN" }
    ({ db with users := db.users ++ [new_user], nextUserId := db.nextUserId + 1 },
     .ok true)

end Api

/-! ## Operation sequences and the balance invariant -/

/-- One ledger operation of claim C1's sequences. -/
inductive Op where
  | createOp (transaction_data : TransactionCreate) (user_id : Nat) (now : Int)
  | deleteOp (transaction_id user_id : Nat)
deriving DecidableEq

/-- The database state after one operation (a raised error rolled the
unit of work back, leaving the state unchanged). -/
def step (db : DB) : Op → DB
  | .createOp d u n => (TransactionService.create_transaction db d u n).1
  | .deleteOp t u => (TransactionService.delete_transaction db t u).1

/-- The database state after a sequence of operations. -/
def run (db : DB) (ops : List Op) : DB := ops.foldl step db

/-- The signed contribution of one transaction to its owner's balance. -/
def signedAmount (t : Transaction) : Int := if t.is_income then t.amount else -t.amount

/-- Sum of signed amounts of the transactions in a list owned by one
user. -/
def signedSumL (l : List Transaction) (user_id : Nat) : Int :=
  ((l.filter (fun t => t.owner_id == user_id)).map signedAmount).sum

/-- Sum of signed amounts of the currently stored (undeleted)
transactions owned by one user. -/
def signedSum (db : DB) (user_id : Nat) : Int := signedSumL db.transactions user_id

/-- The spec's balance invariant (§3): every stored user's balance
equals the signed sum of their undeleted transactions. -/
def BalanceInvariant (db : DB) : Prop :=
  ∀ u ∈ db.users, u.balance = signedSum db u.id

/-- Primary-key well-formedness maintained by the database: user ids
and transaction ids are unique, and the autoincrement counter is above
every stored transaction id. -/
def WF (db : DB) : Prop :=
  (db.users.map (fun u => u.id)).Nodup
  ∧ (db.transactions.map (fun t => t.id)).Nodup
  ∧ ∀ t ∈ db.transactions, t.id < db.nextTransactionId

instance : DecidablePred BalanceInvariant := fun db => by
  unfold BalanceInvariant; infer_instance

instance : DecidablePred WF := fun db => by
  unfold WF; infer_instance

instance {ε : Type u} {α : Type v} [DecidableEq ε] [DecidableEq α] :
    DecidableEq (Except ε α) := fun a b =>
  match a, b with
  | .ok x, .ok y => if h : x = y then .isTrue (by rw [h]) else .isFalse (by simp [h])
  | .error x, .error y => if h : x = y then .isTrue (by rw [h]) else .isFalse (by simp [h])
  | .ok _, .error _ => .isFalse (by simp)
  | .error _, .ok _ => .isFalse (by simp)

/-! ## Concrete data for witnesses and counterexamples -/

/-- A freshly registered user (model defaults: balance `0`,
currency `"BYN"`). -/
def aliceUser : User :=
  { id := 1, username := "alice", password := get_password_hash "alicepw",
    image := "img", balance := 0, primary_currency := "BYN" }

/-- A second user owning one transaction. -/
def bobUser : User :=
  { id := 2, username := "bob", password := get_password_hash "bobpw",
    image := "img", balance := 300, primary_currency := "BYN" }

/-- A database holding only the fresh user `aliceUser`. -/
def dbOne : DB :=
  { users := [aliceUser], transactions := [], tags := [],
    nextUserId := 2, nextTransactionId := 1, nextTagId := 1 }

/-- The empty database (no users). -/
def dbEmpty : DB :=
  { users := [], transactions := [], tags := [],
    nextUserId := 1, nextTransactionId := 1, nextTagId := 1 }

/-- A transaction owned by `bobUser`. -/
def bobTx : Transaction :=
  { id := 7, description := "bob income", currency := "USD", amount := 300,
    is_income := true, created_at := 5, owner_id := 2 }

/-- Two users; the only transaction belongs to `bobUser`. -/
def dbOwner : DB :=
  { users := [aliceUser, bobUser], transactions := [bobTx], tags := [],
    nextUserId := 3, nextTransactionId := 8, nextTagId := 1 }

/-- A transaction of `aliceUser` tagged `{"food", "lunch"}`. -/
def txFood : Transaction :=
  { id := 1, description := "grocery", currency := "USD", amount := 1200,
    is_income := false, created_at := 100, owner_id := 1 }

/-- Database for the tag-filter example: `txFood` carries tags
`"food"` and `"lunch"`. -/
def dbTag : DB :=
  { users := [{ aliceUser with balance := -1200 }], transactions := [txFood],
    tags := [{ id := 1, text := "food", user_id := 1, transaction_id := 1 },
             { id := 2, text := "lunch", user_id := 1, transaction_id := 1 }],
    nextUserId := 2, nextTransactionId := 2, nextTagId := 3 }

/-- Filter requiring tag `"food"`. -/
def fFood : TransactionFilter := { tags := some ["food"] }

/-- Filter requiring tags `"food"` and `"lunch"`. -/
def fFoodLunch : TransactionFilter := { tags := some ["food", "lunch"] }

/-- Filter requiring tags `"food"` and `"dinner"`. -/
def fFoodDinner : TransactionFilter := { tags := some ["food", "dinner"] }

/-- Filter whose `end_date` is `0`. -/
def fEnd0 : TransactionFilter := { end_date := some 0 }

/-- Filter with both date bounds supplied and truthy. -/
def fRange : TransactionFilter := { start_date := some 1, end_date := some 200 }

/-- An income transaction of `aliceUser` created at time 100. -/
def txDate : Transaction :=
  { id := 1, description := "d", currency := "USD", amount := 100,
    is_income := true, created_at := 100, owner_id := 1 }

/-- Database for the date-filter example. -/
def dbDate : DB :=
  { users := [{ aliceUser with balance := 100 }], transactions := [txDate], tags := [],
    nextUserId := 2, nextTransactionId := 2, nextTagId := 1 }

/-- Client input: income of 10.00 currency units. -/
def dataTen : TransactionCreate :=
  { description := "salary", currency := "USD", amount := 10, is_income := true, tags := [] }

/-- Client input with a negative decimal amount (the schema declares no
sign constraint). -/
def dataNeg : TransactionCreate :=
  { description := "refund", currency := "USD", amount := -5, is_income := false, tags := [] }

/-- Registration input for a username absent from `dbOne`. -/
def dataCarol : UserCreate := { username := "carol", password := "pw", image := none }

/-- The database state after creating `dataTen` for `aliceUser`. -/
def dbAfterTen : DB := (TransactionService.create_transaction dbOne dataTen 1 77).1

/-- A sequence of create and delete operations for claim C1's witness. -/
def opsSeq : List Op :=
  [Op.createOp dataTen 1 5, Op.createOp dataNeg 1 6, Op.deleteOp 1 1]

/-- A session with one pending write, for the unit-of-work witness. -/
def sessionW : Session :=
  { committed := dbOne, pending := [Write.setBalance 1 42], closed := false }

/-! ## Helper lemmas -/

theorem pyInt_intCast (n : ℤ) : pyInt (n : ℚ) = n := by
  unfold pyInt
  split <;> simp

theorem pyInt_eq {q : ℚ} {n : ℤ} (h : q = (n : ℚ)) : pyInt q = n := by
  rw [h, pyInt_intCast]

theorem pyInt_nonneg {q : ℚ} (h : 0 ≤ q) : 0 ≤ pyInt q := by
  unfold pyInt
  rw [if_pos h]
  exact Int.floor_nonneg.mpr h

theorem applyWrites_nil (db : DB) : applyWrites db [] = db := rfl

theorem applyWrites_cons (db : DB) (w : Write) (ws : List Write) :
    applyWrites db (w :: ws) = applyWrites (applyWrite db w) ws := rfl

/-- Tag-insert writes touch only the `tags` relation and its counter. -/
theorem applyWrites_insertTags (texts : List String) (uid tid : Nat) : ∀ db : DB,
    (applyWrites db (texts.map (fun s => Write.insertTag s uid tid))).users = db.users
    ∧ (applyWrites db (texts.map (fun s => Write.insertTag s uid tid))).transactions
        = db.transactions
    ∧ (applyWrites db (texts.map (fun s => Write.insertTag s uid tid))).nextTransactionId
        = db.nextTransactionId := by
  induction texts with
  | nil => exact fun db => ⟨rfl, rfl, rfl⟩
  | cons a as ih =>
      intro db
      simpa [applyWrites_cons] using ih (applyWrite db (Write.insertTag a uid tid))

/-- `createBody` when the user exists: the three kinds of writes, given
the already-evaluated minor-unit amount. -/
theorem createBody_user_some (d : TransactionCreate) (now : Int) {db : DB} {uid : Nat}
    {u : User} (hu : UserRepo.get_by_id db uid = some u) {f : Int}
    (hf : pyInt (d.amount * 100) = f) :
    TransactionService.createBody db d uid now =
      .ok (Write.insertTransaction
             { id := db.nextTransactionId, description := d.description,
               currency := d.currency, amount := f, is_income := d.is_income,
               created_at := now, owner_id := uid }
           :: Write.setBalance uid
               (if d.is_income then u.balance + f else u.balance - f)
           :: d.tags.map (fun text => Write.insertTag text uid db.nextTransactionId)) := by
  subst hf
  unfold TransactionService.createBody
  rw [hu]

/-- `createBody` when the user does not exist. -/
theorem createBody_user_none {db : DB} {d : TransactionCreate} {uid : Nat} {now : Int}
    (hu : UserRepo.get_by_id db uid = none) :
    TransactionService.createBody db d uid now = .error userNotFound := by
  unfold TransactionService.createBody
  rw [hu]

/-- A successful body commits exactly its writes. -/
theorem create_transaction_ok {db : DB} {d : TransactionCreate} {uid : Nat} {now : Int}
    {ws : List Write} (h : TransactionService.createBody db d uid now = .ok ws) :
    TransactionService.create_transaction db d uid now = (applyWrites db ws, .ok true) := by
  unfold TransactionService.create_transaction runUow
  rw [h]
  rfl

/-- A failing body rolls back and propagates the failure. -/
theorem create_transaction_err {db : DB} {d : TransactionCreate} {uid : Nat} {now : Int}
    {e : Err} (h : TransactionService.createBody db d uid now = .error e) :
    TransactionService.create_transaction db d uid now = (db, .error e) := by
  unfold TransactionService.create_transaction runUow
  rw [h]
  rfl

/-! ## Claim C5: minor-unit round trip -/

/-- C5: creating a transaction with `amount = 10.00`, `is_income = true`
for the existing user and reading it back by id yields `amount = 10.00`
as a decimal (not the stored `1000`); the stored integer is
`pyInt (10 * 100) = 1000` and the presented value is `1000 / 100`. -/
theorem amount_minor_unit_round_trip :
    dbAfterTen.transactions.map (fun t => t.amount) = [1000]
    ∧ pyInt (dataTen.amount * 100) = 1000
    ∧ (TransactionService.get_transaction dbAfterTen 1 1).map (fun o => o.amount) = some 10
    ∧ (TransactionService.get_transaction dbAfterTen 1 1).map (fun o => o.amount)
        ≠ some 1000 := by
  have hf : pyInt (dataTen.amount * 100) = 1000 := pyInt_eq (by norm_num [dataTen])
  have hc := create_transaction_ok
    (createBody_user_some dataTen 77
      (show UserRepo.get_by_id dbOne 1 = some aliceUser from rfl) hf)
  have hdb : dbAfterTen = applyWrites dbOne
      (Write.insertTransaction
         { id := dbOne.nextTransactionId, description := dataTen.description,
           currency := dataTen.currency, amount := 1000, is_income := dataTen.is_income,
           created_at := 77, owner_id := 1 }
       :: Write.setBalance 1
           (if dataTen.is_income then aliceUser.balance + 1000 else aliceUser.balance - 1000)
       :: dataTen.tags.map (fun text => Write.insertTag text 1 dbOne.nextTransactionId)) := by
    unfold dbAfterTen
    rw [hc]
  refine ⟨?_, hf, ?_, ?_⟩
  · rw [hdb]; rfl
  · rw [hdb]
    show some (((1000 : Int) : ℚ) / 100) = some 10
    norm_num
  · rw [hdb]
    show ¬ some (((1000 : Int) : ℚ) / 100) = some 1000
    simp only [Option.some_inj]
    norm_num

/-! ## Claim C9: stored amount and balance direction -/

/-- C9 counterexample: the schema does not constrain the sign of the
client amount; creating with `amount = -5` persists the negative stored
amount `-500`, refuting "the stored amount is a non-negative integer
magnitude for every client-supplied input". -/
theorem create_stores_negative_amount :
    (TransactionService.create_transaction dbOne dataNeg 1 10).1.transactions.map
        (fun t => t.amount) = [-500]
    ∧ ¬ (0 : Int) ≤ -500 := by
  have hf : pyInt (dataNeg.amount * 100) = -500 := pyInt_eq (by norm_num [dataNeg])
  have hc := create_transaction_ok
    (createBody_user_some dataNeg 10
      (show UserRepo.get_by_id dbOne 1 = some aliceUser from rfl) hf)
  rw [hc]
  exact ⟨rfl, by decide⟩

/-- C9 (amended): every transaction persisted by create stores
`pyInt (amount * 100)`, which is non-negative whenever the
client-supplied amount is non-negative, and the balance write direction
is decided solely by `is_income` (add for income, subtract otherwise),
never by a stored sign. -/
theorem stored_amount_truncation_and_direction (db : DB) (d : TransactionCreate)
    (uid : Nat) (now : Int) (u : User) (hu : UserRepo.get_by_id db uid = some u) :
    (TransactionService.create_transaction db d uid now).1.transactions
      = db.transactions ++
        [{ id := db.nextTransactionId, description := d.description, currency := d.currency,
           amount := pyInt (d.amount * 100), is_income := d.is_income, created_at := now,
           owner_id := uid }]
    ∧ (0 ≤ d.amount → 0 ≤ pyInt (d.amount * 100))
    ∧ TransactionService.createBody db d uid now =
        .ok (Write.insertTransaction
               { id := db.nextTransactionId, description := d.description,
                 currency := d.currency, amount := pyInt (d.amount * 100),
                 is_income := d.is_income, created_at := now, owner_id := uid }
             :: Write.setBalance uid
                 (if d.is_income then u.balance + pyInt (d.amount * 100)
                  else u.balance - pyInt (d.amount * 100))
             :: d.tags.map (fun text => Write.insertTag text uid db.nextTransactionId)) := by
  have hb := createBody_user_some d now hu rfl
  refine ⟨?_, fun h => pyInt_nonneg (mul_nonneg h (by norm_num)), hb⟩
  rw [create_transaction_ok hb]
  rw [applyWrites_cons, applyWrites_cons]
  rw [(applyWrites_insertTags d.tags uid db.nextTransactionId _).2.1]
  rfl

/-- Witness for the amended C9 at a concrete input. -/
theorem stored_amount_truncation_and_direction_witness :
    (TransactionService.create_transaction dbOne dataTen 1 77).1.transactions
      = dbOne.transactions ++
        [{ id := dbOne.nextTransactionId, description := dataTen.description,
           currency := dataTen.currency, amount := pyInt (dataTen.amount * 100),
           is_income := dataTen.is_income, created_at := 77, owner_id := 1 }]
    ∧ (0 ≤ dataTen.amount → 0 ≤ pyInt (dataTen.amount * 100))
    ∧ TransactionService.createBody dbOne dataTen 1 77 =
        .ok (Write.insertTransaction
               { id := dbOne.nextTransactionId, description := dataTen.description,
                 currency := dataTen.currency, amount := pyInt (dataTen.amount * 100),
                 is_income := dataTen.is_income, created_at := 77, owner_id := 1 }
             :: Write.setBalance 1
                 (if dataTen.is_income then aliceUser.balance + pyInt (dataTen.amount * 100)
                  else aliceUser.balance - pyInt (dataTen.amount * 100))
             :: dataTen.tags.map (fun text => Write.insertTag text 1 dbOne.nextTransactionId)) :=
  stored_amount_truncation_and_direction dbOne dataTen 1 77 aliceUser rfl

/-! ## Claim C3: ownership scoping -/

/-- C3: when no stored transaction has the requested id AND the caller
as owner — covering both a transaction owned by another user and an id
that does not exist at all — the repository read returns `none`, the
service read returns `none`, and delete returns `False` leaving the
database unchanged: the outcomes are identical in both cases. -/
theorem ownership_scoped_not_found (db : DB) (tid uid : Nat)
    (h : ∀ t ∈ db.transactions, ¬(t.id = tid ∧ t.owner_id = uid)) :
    TransactionRepo.get_by_id db tid uid = none
    ∧ TransactionService.get_transaction db tid uid = none
    ∧ TransactionService.delete_transaction db tid uid = (db, .ok false) := by
  have hg : TransactionRepo.get_by_id db tid uid = none := by
    unfold TransactionRepo.get_by_id
    rw [List.find?_eq_none]
    intro t ht
    simpa [beq_iff_eq] using h t ht
  refine ⟨hg, ?_, ?_⟩
  · unfold TransactionService.get_transaction
    rw [hg]
  · unfold TransactionService.delete_transaction TransactionService.deleteBody
    rw [hg]
    rfl

/-- Witness: user 1 requesting user 2's transaction (id 7) in
`dbOwner`. -/
theorem ownership_scoped_not_found_witness :
    TransactionRepo.get_by_id dbOwner 7 1 = none
    ∧ TransactionService.get_transaction dbOwner 7 1 = none
    ∧ TransactionService.delete_transaction dbOwner 7 1 = (dbOwner, .ok false) :=
  ownership_scoped_not_found dbOwner 7 1 (by decide)

/-! ## Claim C6: authentication outcomes -/

/-- C6 counterexample: the `/auth/login` endpoint surfaces 404 "User not
found" for a missing username but 401 "Invalid password" for a wrong
password — the failure surfaced to the caller of login does distinguish
the two cases, refuting the claim at this concrete input. -/
theorem login_endpoint_distinguishes :
    Api.login dbOne { username := "carol", password := "x" }
      = .error { status := 404, detail := "User not found" }
    ∧ Api.login dbOne { username := "alice", password := "wrong" }
      = .error { status := 401, detail := "Invalid password" }
    ∧ ({ status := 404, detail := "User not found" } : Err)
        ≠ { status := 401, detail := "Invalid password" } :=
  ⟨rfl, rfl, by decide⟩

/-- C6 (amended): `authenticate_user` returns the same no-match value
(`none`) whether the username is absent or the password wrong, and
`AuthService.login` turns any no-match into a uniform 401; the
`/auth/login` endpoint, however, distinguishes the two cases (404 for a
missing username, 401 for a failed verification). -/
theorem authenticate_uniform_login_endpoint_distinct (db : DB) (ld : UserLogin) :
    (UserRepo.get_by_username db ld.username = none →
        AuthService.authenticate_user db ld.username ld.password = none
        ∧ Api.login db ld = .error { status := 404, detail := "User not found" })
    ∧ (∀ u, UserRepo.get_by_username db ld.username = some u →
          verify_password ld.password u.password = false →
          AuthService.authenticate_user db ld.username ld.password = none
          ∧ Api.login db ld = .error { status := 401, detail := "Invalid password" })
    ∧ (AuthService.authenticate_user db ld.username ld.password = none →
        AuthService.login db ld = .error { status := 401, detail := "Invalid credentials" }) := by
  refine ⟨fun h => ⟨?_, ?_⟩, fun u hu hv => ⟨?_, ?_⟩, fun h => ?_⟩
  · unfold AuthService.authenticate_user
    rw [h]
  · unfold Api.login
    rw [h]
  · unfold AuthService.authenticate_user
    rw [hu]
    simp [hv]
  · unfold Api.login
    rw [hu]
    simp [hv]
  · unfold AuthService.login
    rw [h]

/-- Witness: wrong password for the existing user `alice` in `dbOne`. -/
theorem authenticate_uniform_witness :
    AuthService.authenticate_user dbOne "alice" "wrong" = none
    ∧ Api.login dbOne { username := "alice", password := "wrong" }
        = .error { status := 401, detail := "Invalid password" } :=
  (authenticate_uniform_login_endpoint_distinct dbOne
      { username := "alice", password := "wrong" }).2.1 aliceUser rfl rfl

/-! ## Claim C7: duplicate registration -/

/-- C7: registration succeeds — returning `True` and storing exactly one
new user — exactly when the username is free, and fails with the
duplicate-username HTTP error (status 400, "User already exists" —
the spec taxonomy's `Conflict`) when the username is taken, so
registering the same username twice gives success then the conflict
error, with no second user created (the failing call returns the
database unchanged). -/
theorem register_success_iff_username_free (db : DB) (user_data : UserCreate) :
    (∀ u, UserRepo.get_by_username db user_data.username = some u →
        AuthService.register_user db user_data
          = (db, .error { status := 400, detail := "User already exists" }))
    ∧ (UserRepo.get_by_username db user_data.username = none →
        AuthService.register_user db user_data = ((UserRepo.create db user_data).1, .ok true)
        ∧ (UserRepo.create db user_data).1.users.length = db.users.length + 1
        ∧ AuthService.register_user (UserRepo.create db user_data).1 user_data
            = ((UserRepo.create db user_data).1,
               .error { status := 400, detail := "User already exists" })) := by
  constructor
  · intro u hu
    unfold AuthService.register_user
    rw [hu]
  · intro h
    have hfind : UserRepo.get_by_username (UserRepo.create db user_data).1 user_data.username
        = some (UserRepo.create db user_data).2 := by
      have h' := h
      unfold UserRepo.get_by_username at h' ⊢
      simp only [UserRepo.create]
      rw [List.find?_append, h']
      simp [List.find?]
    refine ⟨?_, ?_, ?_⟩
    · unfold AuthService.register_user
      rw [h]
    · simp [UserRepo.create]
    · unfold AuthService.register_user
      rw [hfind]

/-- Witness: registering `carol` twice starting from `dbOne`. -/
theorem register_twice_witness :
    AuthService.register_user dbOne dataCarol = ((UserRepo.create dbOne dataCarol).1, .ok true)
    ∧ (UserRepo.create dbOne dataCarol).1.users.length = dbOne.users.length + 1
    ∧ AuthService.register_user (UserRepo.create dbOne dataCarol).1 dataCarol
        = ((UserRepo.create dbOne dataCarol).1,
           .error { status := 400, detail := "User already exists" }) :=
  (register_success_iff_username_free dbOne dataCarol).2 rfl

/-! ## Claim C10: new-user defaults -/

/-- C10: the registration paths (repository `create` and the
`/auth/register` endpoint) never write a balance or currency, so every
newly created user carries the model defaults `balance = 0` and
`primary_currency = "BYN"`. -/
theorem new_user_default_balance_currency (db : DB) (user_data : UserCreate) :
    ((UserRepo.create db user_data).2.balance = 0
      ∧ (UserRepo.create db user_data).2.primary_currency = "BYN"
      ∧ (UserRepo.create db user_data).1.users
          = db.users ++ [(UserRepo.create db user_data).2])
    ∧ (UserRepo.get_by_username db user_data.username = none →
        ∃ u, (Api.register db user_data).1.users = db.users ++ [u]
          ∧ u.balance = 0 ∧ u.primary_currency = "BYN") := by
  refine ⟨⟨rfl, rfl, rfl⟩, fun h => ?_⟩
  unfold Api.register
  rw [h]
  exact ⟨_, rfl, rfl, rfl⟩

/-- Witness: registering `carol` in `dbOne` through the endpoint. -/
theorem new_user_default_balance_currency_witness :
    ∃ u, (Api.register dbOne dataCarol).1.users = dbOne.users ++ [u]
      ∧ u.balance = 0 ∧ u.primary_currency = "BYN" :=
  (new_user_default_balance_currency dbOne dataCarol).2 rfl

/-! ## Claim C2: unit-of-work atomicity -/

/-- C2: `__aexit__` closes the session on every exit path, keeps the
committed state unchanged on failure, and applies all pending writes
together on success; a successful create-transaction body commits its
full write list (one transaction row, one balance update, one tag row
per tag) in one commit, while a failing body leaves the database
unchanged and propagates the failure. -/
theorem uow_commit_rollback_release (s : Session) (exc : Bool) (db : DB)
    (d : TransactionCreate) (uid : Nat) (now : Int) :
    ((SQLAlchemyUnitOfWork.aexit exc s).closed = true
      ∧ (SQLAlchemyUnitOfWork.aexit true s).committed = s.committed
      ∧ (SQLAlchemyUnitOfWork.aexit false s).committed = applyWrites s.committed s.pending)
    ∧ (∀ e, TransactionService.createBody db d uid now = .error e →
          TransactionService.create_transaction db d uid now = (db, .error e))
    ∧ (∀ ws, TransactionService.createBody db d uid now = .ok ws →
          TransactionService.create_transaction db d uid now = (applyWrites db ws, .ok true)
          ∧ ∃ t new_balance,
              ws = Write.insertTransaction t :: Write.setBalance uid new_balance
                :: d.tags.map (fun text => Write.insertTag text uid t.id)) := by
  refine ⟨⟨?_, rfl, rfl⟩, fun e he => create_transaction_err he,
    fun ws hws => ⟨create_transaction_ok hws, ?_⟩⟩
  · cases exc <;> rfl
  · cases hu : UserRepo.get_by_id db uid with
    | none =>
        rw [createBody_user_none hu] at hws
        simp at hws
    | some u =>
        rw [createBody_user_some d now hu rfl] at hws
        exact ⟨_, _, (Except.ok.inj hws).symm⟩

/-- Witness: the released-on-rollback path at a concrete session, and a
failing body (no such user) leaving the concrete database unchanged. -/
theorem uow_commit_rollback_release_witness :
    (SQLAlchemyUnitOfWork.aexit true sessionW).closed = true
    ∧ TransactionService.create_transaction dbEmpty dataTen 1 5
        = (dbEmpty, .error userNotFound) :=
  ⟨(uow_commit_rollback_release sessionW true dbEmpty dataTen 1 5).1.1,
   (uow_commit_rollback_release sessionW true dbEmpty dataTen 1 5).2.1 userNotFound rfl⟩

/-! ## Claim C4: tag AND-filtering after pagination -/

/-- C4: with a tags list supplied, `get_multi` returns exactly the
members of the server-side page (owner/date/description filtering,
`created_at` descending order, offset `(page-1)*per_page`, limit
`per_page`, all computed before tag filtering) that carry all required
tag texts; concretely, a transaction tagged `{"food","lunch"}` matches
`["food"]` and `["food","lunch"]` but not `["food","dinner"]`, and in
the last case the page holds fewer than `per_page` results even though
the server-side page is non-empty. -/
theorem tag_and_filter_after_pagination :
    (∀ (db : DB) (uid : Nat) (f : TransactionFilter) (ts : List String),
        f.tags = some ts →
        TransactionRepo.get_multi db uid f
          = (TransactionRepo.serverPage db uid f).filter (TransactionRepo.hasAllTags db ts))
    ∧ TransactionRepo.get_multi dbTag 1 fFood = [txFood]
    ∧ TransactionRepo.get_multi dbTag 1 fFoodLunch = [txFood]
    ∧ TransactionRepo.get_multi dbTag 1 fFoodDinner = []
    ∧ (TransactionRepo.get_multi dbTag 1 fFoodDinner).length < fFoodDinner.per_page
    ∧ TransactionRepo.serverPage dbTag 1 fFoodDinner ≠ [] := by
  refine ⟨?_, by decide, by decide, by decide, by decide, by decide⟩
  intro db uid f ts h
  unfold TransactionRepo.get_multi
  rw [h]
  cases ts with
  | nil =>
      show TransactionRepo.serverPage db uid f
        = (TransactionRepo.serverPage db uid f).filter (TransactionRepo.hasAllTags db [])
      exact (List.filter_true _).symm
  | cons a as => rfl

/-- Witness: the filter equation at the concrete tagged database. -/
theorem tag_and_filter_after_pagination_witness :
    TransactionRepo.get_multi dbTag 1 fFood
      = (TransactionRepo.serverPage dbTag 1 fFood).filter
          (TransactionRepo.hasAllTags dbTag ["food"]) :=
  tag_and_filter_after_pagination.1 dbTag 1 fFood ["food"] rfl

/-! ## Claim C8: date bounds -/

theorem mem_insertDesc {t u : Transaction} {l : List Transaction} :
    t ∈ TransactionRepo.insertDesc u l ↔ t = u ∨ t ∈ l := by
  induction l with
  | nil => simp [TransactionRepo.insertDesc]
  | cons a as ih =>
      unfold TransactionRepo.insertDesc
      split
      · simp only [List.mem_cons, ih]
        tauto
      · simp only [List.mem_cons]

theorem mem_sortDesc {t : Transaction} {l : List Transaction} :
    t ∈ TransactionRepo.sortDesc l ↔ t ∈ l := by
  induction l with
  | nil => simp [TransactionRepo.sortDesc]
  | cons a as ih =>
      unfold TransactionRepo.sortDesc at ih ⊢
      simp only [List.foldr_cons, mem_insertDesc, ih, List.mem_cons]

/-- Every transaction returned by `get_multi` satisfies the built WHERE
conditions. -/
theorem mem_get_multi_matches {db : DB} {uid : Nat} {f : TransactionFilter}
    {t : Transaction} (h : t ∈ TransactionRepo.get_multi db uid f) :
    TransactionRepo.txMatches uid f t = true := by
  have hpage : t ∈ TransactionRepo.serverPage db uid f := by
    unfold TransactionRepo.get_multi at h
    cases hts : f.tags with
    | none => rw [hts] at h; exact h
    | some ts =>
        rw [hts] at h
        cases ts with
        | nil => exact h
        | cons a as =>
            have h' : t ∈ (TransactionRepo.serverPage db uid f).filter
                (TransactionRepo.hasAllTags db (a :: as)) := h
            exact (List.mem_filter.mp h').1
  unfold TransactionRepo.serverPage at hpage
  have h1 := (List.take_sublist _ _).mem hpage
  have h2 := (List.drop_sublist _ _).mem h1
  exact (List.mem_filter.mp (mem_sortDesc.mp h2)).2

/-- C8 (amended): a supplied nonzero `start_date` is an inclusive lower
bound on `created_at` of every returned transaction, and a supplied
`end_date` that is neither `0` nor `-1` is an inclusive upper bound;
`-1` — and, because Python truthiness treats `0` as absent, also `0` —
means "no upper bound". -/
theorem date_bounds_truthy (db : DB) (uid : Nat) (f : TransactionFilter)
    (t : Transaction) (h : t ∈ TransactionRepo.get_multi db uid f) :
    (∀ sd, f.start_date = some sd → sd ≠ 0 → sd ≤ t.created_at)
    ∧ (∀ ed, f.end_date = some ed → ed ≠ 0 → ed ≠ -1 → t.created_at ≤ ed) := by
  have hm := mem_get_multi_matches h
  unfold TransactionRepo.txMatches at hm
  simp only [Bool.and_eq_true] at hm
  obtain ⟨⟨⟨_, _⟩, hsd⟩, hed⟩ := hm
  constructor
  · intro sd hs hne
    rw [hs] at hsd
    simp only [beq_eq_false_iff_ne.mpr hne, Bool.false_eq_true, if_false,
      decide_eq_true_eq] at hsd
    exact hsd
  · intro ed he hne0 hne1
    rw [he] at hed
    simp only [beq_eq_false_iff_ne.mpr hne0, beq_eq_false_iff_ne.mpr hne1,
      Bool.or_self, Bool.false_eq_true, if_false, decide_eq_true_eq] at hed
    exact hed

/-- Witness: both bounds at the concrete database and range filter. -/
theorem date_bounds_truthy_witness :
    (∀ sd, fRange.start_date = some sd → sd ≠ 0 → sd ≤ txDate.created_at)
    ∧ (∀ ed, fRange.end_date = some ed → ed ≠ 0 → ed ≠ -1 → txDate.created_at ≤ ed) :=
  date_bounds_truthy dbDate 1 fRange txDate (by decide)

/-- C8 counterexample: with `end_date = 0` supplied, the page still
contains the transaction with `created_at = 100 > 0` — Python truthiness
drops the condition, so a supplied `0` is not an upper bound, refuting
"only the value -1 means no upper bound". -/
theorem end_date_zero_not_a_bound :
    fEnd0.end_date = some 0
    ∧ TransactionRepo.get_multi dbDate 1 fEnd0 = [txDate]
    ∧ ¬ txDate.created_at ≤ 0 := by decide

/-! ## Claim C1: the balance invariant -/

theorem signedSumL_nil (x : Nat) : signedSumL [] x = 0 := rfl

theorem signedSumL_cons (a : Transaction) (l : List Transaction) (x : Nat) :
    signedSumL (a :: l) x
      = (if a.owner_id == x then signedAmount a else 0) + signedSumL l x := by
  unfold signedSumL
  rw [List.filter_cons]
  split
  · simp
  · simp

theorem signedSumL_append (l1 l2 : List Transaction) (x : Nat) :
    signedSumL (l1 ++ l2) x = signedSumL l1 x + signedSumL l2 x := by
  simp [signedSumL, List.filter_append]

/-- Removing the (unique) transaction with a given id subtracts its
signed contribution. -/
theorem signedSumL_filter_ne_id {l : List Transaction}
    (hnd : (l.map (fun t => t.id)).Nodup) {tx : Transaction} (htx : tx ∈ l) (x : Nat) :
    signedSumL (l.filter (fun t => !(t.id == tx.id))) x
      = signedSumL l x - (if tx.owner_id == x then signedAmount tx else 0) := by
  induction l with
  | nil => cases htx
  | cons a as ih =>
      simp only [List.map_cons, List.nodup_cons] at hnd
      rcases List.mem_cons.mp htx with rfl | hmem
      · rw [List.filter_cons]
        have hc : (!(tx.id == tx.id)) = false := by simp
        have hall : as.filter (fun t => !(t.id == tx.id)) = as := by
          apply List.filter_eq_self.mpr
          intro t ht
          have : t.id ≠ tx.id := fun he => hnd.1 (he ▸ List.mem_map_of_mem _ ht)
          simp [this]
        rw [hc]
        simp only [Bool.false_eq_true, if_false, hall, signedSumL_cons]
        ring
      · have hane : a.id ≠ tx.id := fun he => hnd.1 (he ▸ List.mem_map_of_mem _ hmem)
        rw [List.filter_cons]
        have hc : (!(a.id == tx.id)) = true := by simp [hane]
        rw [hc]
        simp only [if_true, signedSumL_cons, ih hnd.2 hmem]
        ring

/-- With unique user ids, looking up a member's id finds exactly that
member. -/
theorem find?_id_eq_of_nodup {l : List User} (hnd : (l.map (fun u => u.id)).Nodup)
    {u : User} (hu : u ∈ l) : l.find? (fun v => v.id == u.id) = some u := by
  induction l with
  | nil => cases hu
  | cons a as ih =>
      simp only [List.map_cons, List.nodup_cons] at hnd
      rcases List.mem_cons.mp hu with rfl | hmem
      · rw [List.find?_cons_of_pos _ (by simp)]
      · have hne : (a.id == u.id) = false := by
          refine beq_eq_false_iff_ne.mpr ?_
          intro he
          exact hnd.1 (he ▸ List.mem_map_of_mem _ hmem)
        rw [List.find?_cons_of_neg _ (by simp [hne])]
        exact ih hnd.2 hmem

/-- A balance update does not change the stored user ids. -/
theorem map_update_id (l : List User) (uid : Nat) (b : Int) :
    (l.map (fun u => if u.id == uid then { u with balance := b } else u)).map
        (fun u => u.id)
      = l.map (fun u => u.id) := by
  rw [List.map_map]
  refine List.map_congr_left ?_
  intro u _
  simp only [Function.comp]
  split <;> rfl

/-- Field-level effect of the create-transaction write list. -/
theorem createWrites_fields (db : DB) (tx : Transaction) (uid : Nat) (bal : Int)
    (texts : List String) (tid : Nat) :
    (applyWrites db (Write.insertTransaction tx :: Write.setBalance uid bal
        :: texts.map (fun s => Write.insertTag s uid tid))).users
      = db.users.map (fun v => if v.id == uid then { v with balance := bal } else v)
    ∧ (applyWrites db (Write.insertTransaction tx :: Write.setBalance uid bal
        :: texts.map (fun s => Write.insertTag s uid tid))).transactions
      = db.transactions ++ [tx]
    ∧ (applyWrites db (Write.insertTransaction tx :: Write.setBalance uid bal
        :: texts.map (fun s => Write.insertTag s uid tid))).nextTransactionId
      = db.nextTransactionId + 1 := by
  rw [applyWrites_cons, applyWrites_cons]
  exact ⟨(applyWrites_insertTags texts uid tid _).1,
         (applyWrites_insertTags texts uid tid _).2.1,
         (applyWrites_insertTags texts uid tid _).2.2⟩

/-- Field-level effect of the delete-transaction write list. -/
theorem deleteWrites_fields (db : DB) (uid : Nat) (bal : Int) (tid : Nat) :
    (applyWrites db [Write.setBalance uid bal, Write.deleteTransaction tid]).users
      = db.users.map (fun v => if v.id == uid then { v with balance := bal } else v)
    ∧ (applyWrites db [Write.setBalance uid bal, Write.deleteTransaction tid]).transactions
      = db.transactions.filter (fun t => !(t.id == tid))
    ∧ (applyWrites db [Write.setBalance uid bal, Write.deleteTransaction tid]).nextTransactionId
      = db.nextTransactionId :=
  ⟨rfl, rfl, rfl⟩

/-- One create operation preserves well-formedness and the balance
invariant. -/
theorem step_create_preserves {db : DB} (d : TransactionCreate) (uid : Nat) (now : Int)
    (hwf : WF db) (hinv : BalanceInvariant db) :
    WF (step db (Op.createOp d uid now))
    ∧ BalanceInvariant (step db (Op.createOp d uid now)) := by
  obtain ⟨hndu, hndt, hbound⟩ := hwf
  cases hu : UserRepo.get_by_id db uid with
  | none =>
      have he : TransactionService.create_transaction db d uid now
          = (db, .error userNotFound) := create_transaction_err (createBody_user_none hu)
      show WF (TransactionService.create_transaction db d uid now).1
        ∧ BalanceInvariant (TransactionService.create_transaction db d uid now).1
      rw [he]
      exact ⟨⟨hndu, hndt, hbound⟩, hinv⟩
  | some u₀ =>
      have hb := createBody_user_some d now hu rfl
      have hc := create_transaction_ok hb
      obtain ⟨tx, bal, htxo, htxi, htxa, htxinc, hbal, hs⟩ :
          ∃ (tx : Transaction) (bal : Int), tx.owner_id = uid
            ∧ tx.id = db.nextTransactionId
            ∧ tx.amount = pyInt (d.amount * 100) ∧ tx.is_income = d.is_income
            ∧ bal = (if d.is_income then u₀.balance + pyInt (d.amount * 100)
                     else u₀.balance - pyInt (d.amount * 100))
            ∧ step db (Op.createOp d uid now) = applyWrites db
                (Write.insertTransaction tx :: Write.setBalance uid bal
                 :: d.tags.map (fun text => Write.insertTag text uid db.nextTransactionId)) := by
        refine ⟨{ id := db.nextTransactionId, description := d.description,
                  currency := d.currency, amount := pyInt (d.amount * 100),
                  is_income := d.is_income, created_at := now, owner_id := uid },
                if d.is_income then u₀.balance + pyInt (d.amount * 100)
                else u₀.balance - pyInt (d.amount * 100),
                rfl, rfl, rfl, rfl, rfl, ?_⟩
        show (TransactionService.create_transaction db d uid now).1 = _
        rw [hc]
      have htxs : signedAmount tx
          = (if d.is_income then pyInt (d.amount * 100) else -pyInt (d.amount * 100)) := by
        unfold signedAmount
        rw [htxinc, htxa]
      have hbal' : bal = u₀.balance + signedAmount tx := by
        rw [hbal, htxs]
        cases d.is_income <;> simp [sub_eq_add_neg]
      obtain ⟨husers, htrans, hnext⟩ :=
        createWrites_fields db tx uid bal d.tags db.nextTransactionId
      have hsum : ∀ x : Nat,
          signedSum (applyWrites db (Write.insertTransaction tx :: Write.setBalance uid bal
              :: d.tags.map (fun text => Write.insertTag text uid db.nextTransactionId))) x
            = signedSum db x + (if tx.owner_id == x then signedAmount tx else 0) := by
        intro x
        unfold signedSum
        rw [htrans, signedSumL_append, signedSumL_cons, signedSumL_nil]
        ring
      rw [hs]
      constructor
      · refine ⟨?_, ?_, ?_⟩
        · rw [husers, map_update_id]
          exact hndu
        · rw [htrans, List.map_append]
          rw [List.nodup_append]
          refine ⟨hndt, List.nodup_singleton _, ?_⟩
          intro x hx hx2
          simp only [List.map_cons, List.map_nil, List.mem_singleton] at hx2
          obtain ⟨t, htm, hidt⟩ := List.mem_map.mp hx
          rw [hx2, htxi] at hidt
          exact absurd (hidt ▸ hbound t htm) (lt_irrefl _)
        · rw [htrans, hnext]
          intro t htm
          rcases List.mem_append.mp htm with h1 | h2
          · exact Nat.lt_succ_of_lt (hbound t h1)
          · rw [List.mem_singleton] at h2
            rw [h2, htxi]
            exact Nat.lt_succ_self _
      · intro v' hv'
        rw [husers] at hv'
        obtain ⟨v, hv, rfl⟩ := List.mem_map.mp hv'
        by_cases hid : (v.id == uid) = true
        · have hvid : v.id = uid := beq_iff_eq.mp hid
          have hu0v : u₀ = v := by
            unfold UserRepo.get_by_id at hu
            have h2 := find?_id_eq_of_nodup hndu hv
            rw [hvid] at h2
            exact Option.some.inj (hu.symm.trans h2)
          rw [if_pos hid]
          show bal = signedSum _ v.id
          rw [hvid, hsum uid, htxo]
          simp only [beq_self_eq_true, eq_self_iff_true, if_true]
          rw [hbal', hu0v, hinv v hv, hvid]
        · rw [if_neg hid]
          have hne : tx.owner_id ≠ v.id := by
            rw [htxo]
            exact fun h => hid (beq_iff_eq.mpr h.symm)
          rw [hsum v.id, beq_eq_false_iff_ne.mpr hne]
          simp only [Bool.false_eq_true, if_false, sub_zero, add_zero]
          exact hinv v hv

/-- One delete operation preserves well-formedness and the balance
invariant. -/
theorem step_delete_preserves {db : DB} (tid uid : Nat)
    (hwf : WF db) (hinv : BalanceInvariant db) :
    WF (step db (Op.deleteOp tid uid))
    ∧ BalanceInvariant (step db (Op.deleteOp tid uid)) := by
  obtain ⟨hndu, hndt, hbound⟩ := hwf
  cases ht : TransactionRepo.get_by_id db tid uid with
  | none =>
      have he : TransactionService.delete_transaction db tid uid = (db, .ok false) := by
        unfold TransactionService.delete_transaction TransactionService.deleteBody
        rw [ht]
        rfl
      show WF (TransactionService.delete_transaction db tid uid).1
        ∧ BalanceInvariant (TransactionService.delete_transaction db tid uid).1
      rw [he]
      exact ⟨⟨hndu, hndt, hbound⟩, hinv⟩
  | some tx =>
      have htmem : tx ∈ db.transactions := by
        unfold TransactionRepo.get_by_id at ht
        exact List.mem_of_find?_eq_some ht
      have htprop := by
        unfold TransactionRepo.get_by_id at ht
        exact List.find?_some ht
      simp only [Bool.and_eq_true, beq_iff_eq] at htprop
      obtain ⟨htid, howner⟩ := htprop
      cases hu : UserRepo.get_by_id db uid with
      | none =>
          have he : TransactionService.delete_transaction db tid uid
              = (db, .error userNotFound) := by
            unfold TransactionService.delete_transaction TransactionService.deleteBody
            rw [ht, hu]
            rfl
          show WF (TransactionService.delete_transaction db tid uid).1
            ∧ BalanceInvariant (TransactionService.delete_transaction db tid uid).1
          rw [he]
          exact ⟨⟨hndu, hndt, hbound⟩, hinv⟩
      | some u₀ =>
          have hs : step db (Op.deleteOp tid uid) = applyWrites db
              [Write.setBalance uid (if tx.is_income then u₀.balance - tx.amount
                 else u₀.balance + tx.amount),
               Write.deleteTransaction tid] := by
            show (TransactionService.delete_transaction db tid uid).1 = _
            unfold TransactionService.delete_transaction TransactionService.deleteBody
            rw [ht, hu]
            rfl
          generalize hbal : (if tx.is_income then u₀.balance - tx.amount
              else u₀.balance + tx.amount) = bal at hs
          obtain ⟨husers, htrans, hnext⟩ := deleteWrites_fields db uid bal tid
          have hbal' : bal = u₀.balance - signedAmount tx := by
            rw [← hbal]
            unfold signedAmount
            cases tx.is_income <;> simp [sub_neg_eq_add]
          have hsum : ∀ x : Nat,
              signedSum (applyWrites db [Write.setBalance uid bal,
                  Write.deleteTransaction tid]) x
                = signedSum db x - (if tx.owner_id == x then signedAmount tx else 0) := by
            intro x
            unfold signedSum
            rw [htrans, ← htid]
            exact signedSumL_filter_ne_id hndt htmem x
          rw [hs]
          constructor
          · refine ⟨?_, ?_, ?_⟩
            · rw [husers, map_update_id]
              exact hndu
            · rw [htrans]
              exact List.Nodup.sublist ((List.filter_sublist _).map _) hndt
            · rw [htrans, hnext]
              intro t htm
              exact hbound t (List.mem_of_mem_filter htm)
          · intro v' hv'
            rw [husers] at hv'
            obtain ⟨v, hv, rfl⟩ := List.mem_map.mp hv'
            by_cases hid : (v.id == uid) = true
            · have hvid : v.id = uid := beq_iff_eq.mp hid
              have hu0v : u₀ = v := by
                unfold UserRepo.get_by_id at hu
                have h2 := find?_id_eq_of_nodup hndu hv
                rw [hvid] at h2
                exact Option.some.inj (hu.symm.trans h2)
              rw [if_pos hid]
              show bal = signedSum _ v.id
              rw [hvid, hsum uid, howner]
              simp only [beq_self_eq_true, eq_self_iff_true, if_true]
              rw [hbal', hu0v, hinv v hv, hvid]
            · rw [if_neg hid]
              have hne : tx.owner_id ≠ v.id := by
                rw [howner]
                exact fun h => hid (beq_iff_eq.mpr h.symm)
              rw [hsum v.id, beq_eq_false_iff_ne.mpr hne]
              simp only [Bool.false_eq_true, if_false, sub_zero]
              exact hinv v hv

/-- C1: starting from any well-formed state satisfying the balance
invariant (as a freshly registered user does: balance 0, no
transactions), after every finite sequence of create-transaction and
delete-transaction operations — hence after each operation of any
sequence — every stored user's balance equals the sum over their
currently-undeleted transactions of (+amount if is_income else
-amount). -/
theorem balance_invariant_all_sequences (db : DB) (ops : List Op)
    (hwf : WF db) (hinv : BalanceInvariant db) :
    WF (run db ops) ∧ BalanceInvariant (run db ops) := by
  induction ops generalizing db with
  | nil => exact ⟨hwf, hinv⟩
  | cons op rest ih =>
      have h : WF (step db op) ∧ BalanceInvariant (step db op) := by
        cases op with
        | createOp d u n => exact step_create_preserves d u n hwf hinv
        | deleteOp t u => exact step_delete_preserves t u hwf hinv
      exact ih (step db op) h.1 h.2

/-- Witness: a concrete create/create/delete sequence from the fresh
single-user database. -/
theorem balance_invariant_all_sequences_witness :
    WF (run dbOne opsSeq) ∧ BalanceInvariant (run dbOne opsSeq) :=
  balance_invariant_all_sequences dbOne opsSeq (by decide) (by decide)

end Ledger
